import Mathlib

/-!
Shallow embedding of the `Dialog` component (src/unnamed/part_001) of the
repository `testing-a11y-without-any-tests`.

The component renders a backdrop + panel overlay when `open` is true,
detects dismissal triggers (Escape key, backdrop click, explicit close
button) and requests closing through the caller-supplied `onClose`
callback.  Two `useEffect` hooks manage the document-level side effects:
a body-scroll lock (`document.body.style.overflow`) and a document-level
`keydown` listener.

Modelling choices:
* the rendered output is a tree of elements (`Elem`), each carrying its
  styled-component tag, its inline `display` style (only the backdrop sets
  one), its click handler, and its children;
* a click event is identified by the path (list of child indices) from the
  root of the rendered tree to the target element; dispatch runs the
  target's handler first and then bubbles towards the root, stopping when a
  handler calls `stopPropagation` — React's bubbling-phase semantics;
* invocations of `onClose` are counted, tagged by which handler made them
  (`fromBackdrop` for `handleBackdropClick`, `fromCloseButton` for the
  close button's `onClick={onClose}`);
* the keydown listener is a closure capturing `closeOnEscape` and `open`
  (the values in the props at registration time), as in the source where
  the effect re-registers whenever those deps change;
* `document.body.style.overflow` is a `String`; the body-scroll effect and
  its cleanup are the two assignments of the first `useEffect`.
-/

/-- `DialogSize` from the source: 'small' | 'medium' | 'large' | 'fullscreen'. -/
inductive DialogSize where
  | small
  | medium
  | large
  | fullscreen
deriving DecidableEq, Repr

/-- The props of `Dialog` that affect behaviour.  `open` is a Lean keyword,
so the field is called `open'`.  `title`, `actions` record presence of the
optional React nodes; `children` is required and always rendered.
`className`, `style`, `maxWidth` and `data-testid` are pass-through
attributes with no behavioural effect and are omitted. -/
structure DialogProps where
  open' : Bool
  title : Bool
  actions : Bool
  size : DialogSize
  showCloseButton : Bool
  closeOnOutsideClick : Bool
  closeOnEscape : Bool
  showBackdrop : Bool
  fullWidth : Bool
  disableBodyScroll : Bool
  usePortal : Bool
deriving DecidableEq, Repr

/-- `getSizeStyles` from the source, as the list of CSS key/value pairs it
returns. -/
def getSizeStyles (size : DialogSize) (fullWidth : Bool) : List (String × String) :=
  match size with
  | .small =>
      [("width", if fullWidth then "100%" else "400px"), ("maxWidth", "90vw")]
  | .large =>
      [("width", if fullWidth then "100%" else "800px"), ("maxWidth", "90vw")]
  | .fullscreen =>
      [("width", "100vw"), ("height", "100vh"), ("maxWidth", "100vw"),
       ("maxHeight", "100vh"), ("margin", "0"), ("borderRadius", "0")]
  | .medium =>
      [("width", if fullWidth then "100%" else "600px"), ("maxWidth", "90vw")]

/-- The click behaviour attached to a rendered element:
* `noop` — no `onClick`;
* `backdropClose flag` — `handleBackdropClick` with `closeOnOutsideClick = flag`;
* `stopProp` — `(e) => e.stopPropagation()` (the `DialogContainer`);
* `closeBtn` — `onClick={onClose}` (the `CloseButton`). -/
inductive ClickHandler where
  | noop
  | backdropClose (closeOnOutsideClick : Bool)
  | stopProp
  | closeBtn
deriving DecidableEq, Repr

/-- Counts of `onClose` invocations made while processing one event, tagged
by the handler that made them. -/
structure ClickOutcome where
  fromBackdrop : Nat
  fromCloseButton : Nat
deriving DecidableEq, Repr

/-- Total number of `onClose` invocations recorded in an outcome. -/
def ClickOutcome.total (o : ClickOutcome) : Nat :=
  o.fromBackdrop + o.fromCloseButton

/-- Pointwise sum of two outcomes. -/
def ClickOutcome.add (a b : ClickOutcome) : ClickOutcome :=
  ⟨a.fromBackdrop + b.fromBackdrop, a.fromCloseButton + b.fromCloseButton⟩

/-- A rendered element: styled-component tag, inline `display` style (only
the backdrop sets one), click handler, children. -/
inductive Elem where
  | node (tag : String) (display : Option String) (handler : ClickHandler)
      (children : List Elem)

/-- The tag of an element. -/
def Elem.tag : Elem → String
  | .node t _ _ _ => t

/-- The inline `display` style of an element. -/
def Elem.display : Elem → Option String
  | .node _ d _ _ => d

/-- `handleBackdropClick` from the source: calls `onClose` iff
`closeOnOutsideClick` holds and the event's target is the backdrop itself
(`event.target === event.currentTarget`).  Returns the number of `onClose`
calls. -/
def handleBackdropClick (closeOnOutsideClick : Bool) (targetIsCurrentTarget : Bool) : Nat :=
  if closeOnOutsideClick && targetIsCurrentTarget then 1 else 0

/-- Run one element's click handler.  `isTarget` says whether the element is
the event's target (for a bubbling listener, `target === currentTarget` holds
exactly at the target).  Returns the `onClose` invocations it makes and
whether it stopped propagation. -/
def runHandler (h : ClickHandler) (isTarget : Bool) : ClickOutcome × Bool :=
  match h with
  | .noop => (⟨0, 0⟩, false)
  | .backdropClose flag => (⟨handleBackdropClick flag isTarget, 0⟩, false)
  | .stopProp => (⟨0, 0⟩, true)
  | .closeBtn => (⟨0, 1⟩, false)

/-- Bubbling step: once the subtree rooted at a child has been processed,
the enclosing element's handler runs as a non-target listener — unless a
descendant already stopped propagation. -/
def bubble (h : ClickHandler) : ClickOutcome × Bool → ClickOutcome × Bool
  | (o, true) => (o, true)
  | (o, false) => (o.add (runHandler h false).1, (runHandler h false).2)

/-- Dispatch a click whose target is the element reached from `e` by the
path of child indices.  Handlers run target-first and bubble towards the
root; a handler that stops propagation prevents all its ancestors' handlers
from running.  `none` when the path denotes no element. -/
def dispatchClick : List Nat → Elem → Option (ClickOutcome × Bool)
  | [], .node _ _ h _ => some (runHandler h true)
  | i :: rest, .node _ _ h cs =>
    (cs.get? i).bind fun c => (dispatchClick rest c).map (bubble h)

/-- The element reached from `e` by a path of child indices. -/
def targetElem : List Nat → Elem → Option Elem
  | [], e => some e
  | i :: rest, .node _ _ _ cs =>
    match cs.get? i with
    | none => none
    | some c => targetElem rest c

/-- The `DialogContainer` (panel) subtree of the `dialogContent` JSX built
by the source for `open = true`; the enclosing backdrop is `dialogContent`
below.  The JSX:

    <DialogBackdrop onClick={handleBackdropClick}
                    style={{ display: showBackdrop ? 'flex' : 'none' }}>
      <DialogContainer onClick={(e) => e.stopPropagation()}>
        {(title || showCloseButton) && <DialogHeader>
            {title && <DialogTitle/>}
            {showCloseButton && <CloseButton onClick={onClose}/>}
        </DialogHeader>}
        <DialogContent>{children}</DialogContent>
        {actions && <DialogActions/>}
      </DialogContainer>
    </DialogBackdrop> -/
def dialogPanel (p : DialogProps) : Elem :=
  Elem.node "DialogContainer" none ClickHandler.stopProp
    ((if p.title || p.showCloseButton then
        [Elem.node "DialogHeader" none ClickHandler.noop
          ((if p.title then [Elem.node "DialogTitle" none ClickHandler.noop []] else []) ++
           (if p.showCloseButton then
              [Elem.node "CloseButton" none ClickHandler.closeBtn []] else []))]
      else []) ++
     [Elem.node "DialogContent" none ClickHandler.noop []] ++
     (if p.actions then [Elem.node "DialogActions" none ClickHandler.noop []] else []))

/-- The full `dialogContent` tree: the backdrop wrapping the panel. -/
def dialogContent (p : DialogProps) : Elem :=
  Elem.node "DialogBackdrop"
    (some (if p.showBackdrop then "flex" else "none"))
    (ClickHandler.backdropClose p.closeOnOutsideClick)
    [dialogPanel p]

/-- The value returned by the `Dialog` component body: `null` when closed,
otherwise the content, mounted through `createPortal(_, document.body)` when
`usePortal` and inline otherwise. -/
inductive RenderResult where
  | null
  | portal (content : Elem)
  | inlineContent (content : Elem)

/-- The render function of the `Dialog` component (after the hooks):

    if (!open) return null
    ...
    return usePortal ? createPortal(dialogContent, document.body) : dialogContent -/
def Dialog (p : DialogProps) : RenderResult :=
  if !p.open' then RenderResult.null
  else if p.usePortal then RenderResult.portal (dialogContent p)
  else RenderResult.inlineContent (dialogContent p)

/-- The content carried by a render result, if any. -/
def contentOf : RenderResult → Option Elem
  | .null => none
  | .portal e => some e
  | .inlineContent e => some e

/-- The closure registered by the keydown `useEffect`: `handleKeyDown`
captures the `closeOnEscape`, `open` and `onClose` values of the render in
which the effect ran (its dependency array is `[closeOnEscape, onClose,
open]`, so the registered listener always reflects the current props). -/
structure KeydownClosure where
  closeOnEscape : Bool
  open' : Bool
deriving DecidableEq, Repr

/-- `handleKeyDown` from the source: calls `onClose` iff `closeOnEscape`
holds, the key is Escape, and `open` holds.  Returns the number of
`onClose` calls. -/
def handleKeyDown (c : KeydownClosure) (key : String) : Nat :=
  if c.closeOnEscape && key == "Escape" && c.open' then 1 else 0

/-- The document-level keydown listeners installed while the component is
mounted.  The effect adds `handleKeyDown` unconditionally — registration is
not gated on `open` (only the handler body checks `open`) — and removes it
in its cleanup, so while mounted exactly one listener is installed. -/
def mountedKeydownListeners (p : DialogProps) : List KeydownClosure :=
  [⟨p.closeOnEscape, p.open'⟩]

/-- Deliver a keydown event of the given key to the document: every
registered listener runs; the total number of `onClose` calls. -/
def documentKeydown (p : DialogProps) (key : String) : Nat :=
  ((mountedKeydownListeners p).map (fun c => handleKeyDown c key)).sum

/-- Body of the body-scroll `useEffect`: sets
`document.body.style.overflow = 'hidden'` when `disableBodyScroll && open`,
leaves it unchanged otherwise. -/
def bodyScrollEffect (disableBodyScroll isOpen : Bool) (overflow : String) : String :=
  if disableBodyScroll && isOpen then "hidden" else overflow

/-- Cleanup of the body-scroll effect: sets
`document.body.style.overflow = ''` when `disableBodyScroll`, leaves it
unchanged otherwise. -/
def bodyScrollCleanup (disableBodyScroll : Bool) (overflow : String) : String :=
  if disableBodyScroll then "" else overflow

/-- Evolution of `document.body.style.overflow` across a sequence of `open`
prop values after mount.  React re-runs an effect only when its deps
change: on each change of `open` the previous effect's cleanup runs, then
the new effect body. -/
def scrollToggles (d : Bool) : Bool → List Bool → String → String
  | _, [], ov => ov
  | prev, o :: rest, ov =>
      scrollToggles d o rest
        (if prev == o then ov else bodyScrollEffect d o (bodyScrollCleanup d ov))

/-- `document.body.style.overflow` after mounting with `open = o0` (the
effect body runs with no prior cleanup) and then rendering the successive
`open` values of `rest`. -/
def scrollAfterMount (d : Bool) (initOv : String) (o0 : Bool) (rest : List Bool) : String :=
  scrollToggles d o0 rest (bodyScrollEffect d o0 initOv)

/-- The props as the caller supplies them: `none` means the option was
omitted at the call site. -/
structure DialogOptions where
  open' : Bool
  title : Bool
  actions : Bool
  size : Option DialogSize
  showCloseButton : Option Bool
  closeOnOutsideClick : Option Bool
  closeOnEscape : Option Bool
  showBackdrop : Option Bool
  fullWidth : Option Bool
  disableBodyScroll : Option Bool
  usePortal : Option Bool
deriving DecidableEq, Repr

/-- The destructuring defaults of the `Dialog` parameter list:
`size = 'medium'`, `showCloseButton = true`, `closeOnOutsideClick = true`,
`closeOnEscape = true`, `showBackdrop = true`, `fullWidth = false`,
`disableBodyScroll = true`, `usePortal = true`. -/
def applyDefaults (o : DialogOptions) : DialogProps :=
  { open' := o.open'
    title := o.title
    actions := o.actions
    size := o.size.getD DialogSize.medium
    showCloseButton := o.showCloseButton.getD true
    closeOnOutsideClick := o.closeOnOutsideClick.getD true
    closeOnEscape := o.closeOnEscape.getD true
    showBackdrop := o.showBackdrop.getD true
    fullWidth := o.fullWidth.getD false
    disableBodyScroll := o.disableBodyScroll.getD true
    usePortal := o.usePortal.getD true }

mutual

/-- All styled-component tags occurring in a tree. -/
def elemTags : Elem → List String
  | .node t _ _ cs => t :: elemTagsList cs

/-- All tags occurring in a forest. -/
def elemTagsList : List Elem → List String
  | [] => []
  | c :: cs => elemTags c ++ elemTagsList cs

end

/-- Tags of the proper descendants of an element. -/
def childTags : Elem → List String
  | .node _ _ _ cs => elemTagsList cs

/-- A handler is ancestor-silent when it makes no `onClose` call while
running as a non-target (bubbling) listener.  Every handler except the
close button's is; the close button sits at a leaf, so it only ever runs as
the target. -/
def ancestorSilent : ClickHandler → Bool
  | .closeBtn => false
  | _ => true

mutual

/-- Every element with children has an ancestor-silent handler, throughout
the tree. -/
def internalsSilent : Elem → Bool
  | .node _ _ h cs => (cs.isEmpty || ancestorSilent h) && internalsSilentList cs

/-- `internalsSilent` on a forest. -/
def internalsSilentList : List Elem → Bool
  | [] => true
  | c :: cs => internalsSilent c && internalsSilentList cs

end

/-- Whether a handler is a `handleBackdropClick`. -/
def isBackdropHandler : ClickHandler → Bool
  | .backdropClose _ => true
  | _ => false

mutual

/-- No handler in the tree is a `handleBackdropClick`. -/
def noBackdropHandler : Elem → Bool
  | .node _ _ h cs => !isBackdropHandler h && noBackdropHandlerList cs

/-- `noBackdropHandler` on a forest. -/
def noBackdropHandlerList : List Elem → Bool
  | [] => true
  | c :: cs => noBackdropHandler c && noBackdropHandlerList cs

end

/-! ### Helper lemmas about handlers and dispatch -/

theorem ClickOutcome.total_add (a b : ClickOutcome) :
    (a.add b).total = a.total + b.total := by
  simp only [ClickOutcome.total, ClickOutcome.add]
  omega

theorem handleBackdropClick_le_one (f t : Bool) : handleBackdropClick f t ≤ 1 := by
  cases f <;> cases t <;> simp [handleBackdropClick]

/-- Any single handler makes at most one `onClose` call. -/
theorem runHandler_total_le_one (h : ClickHandler) (b : Bool) :
    (runHandler h b).1.total ≤ 1 := by
  cases h with
  | noop => simp [runHandler, ClickOutcome.total]
  | backdropClose f =>
      simpa [runHandler, ClickOutcome.total] using handleBackdropClick_le_one f b
  | stopProp => simp [runHandler, ClickOutcome.total]
  | closeBtn => simp [runHandler, ClickOutcome.total]

/-- An ancestor-silent handler makes no `onClose` call as a non-target
listener. -/
theorem runHandler_nonTarget_total (h : ClickHandler) (hs : ancestorSilent h = true) :
    (runHandler h false).1.total = 0 := by
  cases h with
  | noop => simp [runHandler, ClickOutcome.total]
  | backdropClose f => simp [runHandler, ClickOutcome.total, handleBackdropClick]
  | stopProp => simp [runHandler, ClickOutcome.total]
  | closeBtn => simp [ancestorSilent] at hs

/-- No handler whatsoever makes a backdrop-tagged `onClose` call as a
non-target listener: `handleBackdropClick` requires
`target === currentTarget`. -/
theorem runHandler_nonTarget_fromBackdrop (h : ClickHandler) :
    (runHandler h false).1.fromBackdrop = 0 := by
  cases h <;> simp [runHandler, handleBackdropClick]

/-- A handler that is not `handleBackdropClick` never makes a
backdrop-tagged `onClose` call. -/
theorem runHandler_notBackdrop_fromBackdrop (h : ClickHandler) (b : Bool)
    (hnb : isBackdropHandler h = false) :
    (runHandler h b).1.fromBackdrop = 0 := by
  cases h <;> simp_all [runHandler, isBackdropHandler]

theorem bubble_total_le_one (h : ClickHandler) (hanc : ancestorSilent h = true)
    (pr : ClickOutcome × Bool) (hle : pr.1.total ≤ 1) :
    (bubble h pr).1.total ≤ 1 := by
  obtain ⟨o, st⟩ := pr
  cases st with
  | true => simpa [bubble] using hle
  | false =>
      simp only [bubble, ClickOutcome.total_add, runHandler_nonTarget_total h hanc]
      simpa using hle

theorem bubble_fromBackdrop (h : ClickHandler) (pr : ClickOutcome × Bool) :
    (bubble h pr).1.fromBackdrop = pr.1.fromBackdrop := by
  obtain ⟨o, st⟩ := pr
  cases st with
  | true => simp [bubble]
  | false =>
      simp [bubble, ClickOutcome.add, runHandler_nonTarget_fromBackdrop h]

theorem internalsSilentList_mem {cs : List Elem} {c : Elem}
    (hl : internalsSilentList cs = true) (hm : c ∈ cs) : internalsSilent c = true := by
  induction cs with
  | nil => cases hm
  | cons d ds ih =>
      simp only [internalsSilentList, Bool.and_eq_true] at hl
      rcases List.mem_cons.mp hm with h | h
      · exact h ▸ hl.1
      · exact ih hl.2 h

theorem noBackdropHandlerList_mem {cs : List Elem} {c : Elem}
    (hl : noBackdropHandlerList cs = true) (hm : c ∈ cs) : noBackdropHandler c = true := by
  induction cs with
  | nil => cases hm
  | cons d ds ih =>
      simp only [noBackdropHandlerList, Bool.and_eq_true] at hl
      rcases List.mem_cons.mp hm with h | h
      · exact h ▸ hl.1
      · exact ih hl.2 h

/-- In a tree all of whose internal handlers are ancestor-silent, one click
dispatch makes at most one `onClose` call: only the target's handler can
contribute. -/
theorem dispatchClick_total_le_one :
    ∀ (path : List Nat) (e : Elem), internalsSilent e = true →
      ∀ (o : ClickOutcome) (s : Bool), dispatchClick path e = some (o, s) →
        o.total ≤ 1 := by
  intro path
  induction path with
  | nil =>
      intro e hsil o s hd
      obtain ⟨t, d, h, cs⟩ := e
      simp only [dispatchClick, Option.some.injEq] at hd
      have hfst : (runHandler h true).1 = o := congrArg Prod.fst hd
      exact hfst ▸ runHandler_total_le_one h true
  | cons i rest ih =>
      intro e hsil o s hd
      obtain ⟨t, d, h, cs⟩ := e
      simp only [dispatchClick, Option.bind_eq_some, Option.map_eq_some'] at hd
      obtain ⟨c, hg, pr, hdc, hb⟩ := hd
      have hmem : c ∈ cs := List.get?_mem hg
      simp only [internalsSilent, Bool.and_eq_true, Bool.or_eq_true] at hsil
      have hsilc : internalsSilent c = true := internalsSilentList_mem hsil.2 hmem
      have hanc : ancestorSilent h = true := by
        rcases hsil.1 with hemp | hok
        · exfalso
          rw [List.isEmpty_iff.mp hemp] at hg
          exact Option.noConfusion hg
        · exact hok
      have hpr : pr.1.total ≤ 1 := by
        obtain ⟨po, ps⟩ := pr
        exact ih c hsilc po ps hdc
      have := bubble_total_le_one h hanc pr hpr
      rw [hb] at this
      exact this

/-- In a tree with no `handleBackdropClick` handler, no dispatch makes a
backdrop-tagged `onClose` call. -/
theorem dispatchClick_fromBackdrop_zero :
    ∀ (path : List Nat) (e : Elem), noBackdropHandler e = true →
      ∀ (o : ClickOutcome) (s : Bool), dispatchClick path e = some (o, s) →
        o.fromBackdrop = 0 := by
  intro path
  induction path with
  | nil =>
      intro e hnb o s hd
      obtain ⟨t, d, h, cs⟩ := e
      simp only [noBackdropHandler, Bool.and_eq_true, Bool.not_eq_true'] at hnb
      simp only [dispatchClick, Option.some.injEq] at hd
      have hfst : (runHandler h true).1 = o := congrArg Prod.fst hd
      exact hfst ▸ runHandler_notBackdrop_fromBackdrop h true hnb.1
  | cons i rest ih =>
      intro e hnb o s hd
      obtain ⟨t, d, h, cs⟩ := e
      simp only [noBackdropHandler, Bool.and_eq_true, Bool.not_eq_true'] at hnb
      simp only [dispatchClick, Option.bind_eq_some, Option.map_eq_some'] at hd
      obtain ⟨c, hg, pr, hdc, hb⟩ := hd
      have hmem : c ∈ cs := List.get?_mem hg
      have hnbc : noBackdropHandler c = true := noBackdropHandlerList_mem hnb.2 hmem
      have hpr : pr.1.fromBackdrop = 0 := by
        obtain ⟨po, ps⟩ := pr
        exact ih c hnbc po ps hdc
      have := bubble_fromBackdrop h pr
      rw [hb] at this
      rw [this, hpr]

/-- Every internal handler of the rendered tree is ancestor-silent: the
backdrop's `handleBackdropClick` requires `target === currentTarget`, the
container's handler only stops propagation, the header has no handler, and
the close button's `onClick={onClose}` sits at a leaf. -/
theorem internalsSilent_dialogContent (p : DialogProps) :
    internalsSilent (dialogContent p) = true := by
  obtain ⟨op, t, a, sz, scb, cooc, coe, sb, fw, dbs, up⟩ := p
  cases t <;> cases scb <;> cases a <;> rfl

/-- The panel subtree contains no `handleBackdropClick` handler. -/
theorem noBackdropHandler_dialogPanel (p : DialogProps) :
    noBackdropHandler (dialogPanel p) = true := by
  obtain ⟨op, t, a, sz, scb, cooc, coe, sb, fw, dbs, up⟩ := p
  cases t <;> cases scb <;> cases a <;> rfl

/-! ### Concrete configurations used as witnesses and counterexamples -/

/-- The all-defaults configuration, mounted closed, with a title. -/
def closedProps : DialogProps :=
  { open' := false, title := true, actions := false, size := DialogSize.medium,
    showCloseButton := true, closeOnOutsideClick := true, closeOnEscape := true,
    showBackdrop := true, fullWidth := false, disableBodyScroll := true,
    usePortal := true }

/-- The all-defaults configuration, mounted open, with a title and actions. -/
def openProps : DialogProps :=
  { open' := true, title := true, actions := true, size := DialogSize.medium,
    showCloseButton := true, closeOnOutsideClick := true, closeOnEscape := true,
    showBackdrop := true, fullWidth := false, disableBodyScroll := true,
    usePortal := true }

/-- Open configuration with both dismissal flags disabled. -/
def openNoDismissProps : DialogProps :=
  { open' := true, title := true, actions := true, size := DialogSize.medium,
    showCloseButton := true, closeOnOutsideClick := false, closeOnEscape := false,
    showBackdrop := true, fullWidth := false, disableBodyScroll := true,
    usePortal := true }

/-- Open configuration with the backdrop hidden. -/
def openHiddenBackdropProps : DialogProps :=
  { open' := true, title := true, actions := true, size := DialogSize.medium,
    showCloseButton := true, closeOnOutsideClick := true, closeOnEscape := true,
    showBackdrop := false, fullWidth := false, disableBodyScroll := true,
    usePortal := true }

/-! ### C3: Escape while open -/

/-- C3: for every configuration with `open = true`, delivering an Escape
keydown to the document invokes `onClose` exactly once when `closeOnEscape`
is enabled and never when it is disabled: the registered `handleKeyDown`
fires iff `closeOnEscape && key === 'Escape' && open`. -/
theorem escape_closes_iff_closeOnEscape (p : DialogProps) (ho : p.open' = true) :
    (p.closeOnEscape = true → documentKeydown p "Escape" = 1) ∧
    (p.closeOnEscape = false → documentKeydown p "Escape" = 0) := by
  constructor
  · intro hc
    simp [documentKeydown, mountedKeydownListeners, handleKeyDown, ho, hc]
  · intro hc
    simp [documentKeydown, mountedKeydownListeners, handleKeyDown, ho, hc]

theorem escape_closes_iff_closeOnEscape_witness :
    documentKeydown openProps "Escape" = 1 ∧
    documentKeydown openNoDismissProps "Escape" = 0 :=
  ⟨(escape_closes_iff_closeOnEscape openProps rfl).1 rfl,
   (escape_closes_iff_closeOnEscape openNoDismissProps rfl).2 rfl⟩

/-! ### C10: Escape while mounted closed -/

/-- C10: while the component is mounted with `open = false`, a keydown
listener is registered on the document, but delivering any key — Escape
included — never invokes `onClose`: the handler's guard
`closeOnEscape && event.key === 'Escape' && open` requires `open`. -/
theorem closed_dialog_escape_never_closes (p : DialogProps) (ho : p.open' = false) :
    mountedKeydownListeners p ≠ [] ∧ ∀ key : String, documentKeydown p key = 0 := by
  constructor
  · simp [mountedKeydownListeners]
  · intro key
    simp [documentKeydown, mountedKeydownListeners, handleKeyDown, ho]

theorem closed_dialog_escape_never_closes_witness :
    mountedKeydownListeners closedProps ≠ [] ∧
    documentKeydown closedProps "Escape" = 0 :=
  ⟨(closed_dialog_escape_never_closes closedProps rfl).1,
   (closed_dialog_escape_never_closes closedProps rfl).2 "Escape"⟩

/-! ### C1: closed dialog — empty render, but the keydown listener is still
installed -/

/-- C1 counterexample: with the all-defaults configuration mounted closed,
the render result is indeed empty, but a document-level keydown listener IS
installed: the keydown `useEffect` calls `document.addEventListener`
unconditionally while mounted (only the handler's body checks `open`), so
the claim "registers no global listeners" is false. -/
theorem closed_dialog_listener_installed_cex :
    closedProps.open' = false ∧
    Dialog closedProps = RenderResult.null ∧
    mountedKeydownListeners closedProps ≠ [] :=
  ⟨rfl, rfl, by decide⟩

/-- C1 (amended): for every configuration, `open = false` produces an empty
render, and while the document-level keydown listener installed by the
mounted component remains registered, it never invokes `onClose`. -/
theorem closed_dialog_renders_nothing (p : DialogProps) (ho : p.open' = false) :
    Dialog p = RenderResult.null ∧
    mountedKeydownListeners p ≠ [] ∧
    ∀ key : String, documentKeydown p key = 0 := by
  refine ⟨?_, ?_, ?_⟩
  · simp [Dialog, ho]
  · simp [mountedKeydownListeners]
  · intro key
    simp [documentKeydown, mountedKeydownListeners, handleKeyDown, ho]

theorem closed_dialog_renders_nothing_witness :
    Dialog closedProps = RenderResult.null ∧
    documentKeydown closedProps "Escape" = 0 :=
  ⟨(closed_dialog_renders_nothing closedProps rfl).1,
   (closed_dialog_renders_nothing closedProps rfl).2.2 "Escape"⟩

/-! ### C2: body-scroll lock across toggle sequences -/

/-- C2 counterexample: the cleanup of the body-scroll effect assigns
`document.body.style.overflow = ''` unconditionally — it does not restore
the value found on entry.  Starting from an already-locked state
(`overflow = 'hidden'`), mounting closed and toggling open → closed ends
with `''`, not the prior `'hidden'`: the lock is not restored for every
starting value. -/
theorem scroll_lock_not_restored_cex :
    scrollAfterMount true "hidden" false [true, false] = "" ∧
    scrollAfterMount true "hidden" false [true, false] ≠ "hidden" := by
  constructor
  · rfl
  · decide

/-- Invariant of the body-scroll effect with `disableBodyScroll` enabled:
after any prop change the overflow style is `'hidden'` exactly while open
and `''` while closed. -/
theorem scrollToggles_closed_form (rest : List Bool) :
    ∀ prev : Bool,
      scrollToggles true prev rest (if prev then "hidden" else "") =
        (if rest.getLastD prev then "hidden" else "") := by
  induction rest with
  | nil =>
      intro prev
      simp [scrollToggles, List.getLastD]
  | cons o rest ih =>
      intro prev
      rw [List.getLastD_cons]
      have hstep :
          (if (prev == o) then (if prev then "hidden" else "")
           else bodyScrollEffect true o (bodyScrollCleanup true (if prev then "hidden" else ""))) =
            (if o then "hidden" else "") := by
        cases prev <;> cases o <;> simp [bodyScrollEffect, bodyScrollCleanup]
      rw [scrollToggles, hstep]
      exact ih o

/-- C2 (amended): with `disableBodyScroll` enabled and the scroll-lock state
starting from its default unlocked value (`overflow = ''`), any sequence of
`open` toggles that ends closed leaves the overflow style at `''`, its value
before the sequence.  Entering Open sets `'hidden'` and leaving Open resets
to `''` idempotently — but the effect clears rather than restores an
arbitrary prior value (see the counterexample). -/
theorem scroll_lock_restored_from_default (o0 : Bool) (rest : List Bool)
    (hlast : rest.getLastD o0 = false) :
    scrollAfterMount true "" o0 rest = "" := by
  unfold scrollAfterMount
  have h0 : bodyScrollEffect true o0 "" = (if o0 then "hidden" else "") := by
    cases o0 <;> simp [bodyScrollEffect]
  rw [h0, scrollToggles_closed_form rest o0, hlast]
  simp

theorem scroll_lock_restored_from_default_witness :
    [true, false, true, false].getLastD false = false ∧
    scrollAfterMount true "" false [true, false, true, false] = "" :=
  ⟨rfl, scroll_lock_restored_from_default false [true, false, true, false] rfl⟩

/-! ### C4: backdrop clicks versus panel clicks -/

/-- C4: for every configuration with `open = true`:
* a click whose target is the backdrop element itself invokes `onClose`
  exactly when `closeOnOutsideClick` is enabled (once), and
* a click whose target lies anywhere inside the panel wrapper (any
  non-empty path) never triggers `handleBackdropClick`: the panel's
  `stopPropagation` handler — and `target === currentTarget` failing even
  without it — keeps backdrop-tagged invocations at zero. -/
theorem backdrop_click_dismissal (p : DialogProps) (ho : p.open' = true) :
    dispatchClick [] (dialogContent p) =
      some (⟨if p.closeOnOutsideClick then 1 else 0, 0⟩, false) ∧
    ∀ (i : Nat) (rest : List Nat) (o : ClickOutcome) (s : Bool),
      dispatchClick (i :: rest) (dialogContent p) = some (o, s) →
        o.fromBackdrop = 0 := by
  constructor
  · simp [dispatchClick, dialogContent, runHandler, handleBackdropClick]
  · intro i rest o s hd
    simp only [dialogContent, dispatchClick, Option.bind_eq_some,
      Option.map_eq_some'] at hd
    obtain ⟨c, hg, pr, hdc, hb⟩ := hd
    have hc : c = dialogPanel p := by
      cases i with
      | zero => simpa using hg.symm
      | succ n => simp at hg
    subst hc
    have hpr : pr.1.fromBackdrop = 0 := by
      obtain ⟨po, ps⟩ := pr
      exact dispatchClick_fromBackdrop_zero rest (dialogPanel p)
        (noBackdropHandler_dialogPanel p) po ps hdc
    have := bubble_fromBackdrop (ClickHandler.backdropClose p.closeOnOutsideClick) pr
    rw [hb] at this
    rw [this, hpr]

theorem backdrop_click_dismissal_witness :
    dispatchClick [] (dialogContent openProps) = some (⟨1, 0⟩, false) ∧
    dispatchClick [] (dialogContent openNoDismissProps) = some (⟨0, 0⟩, false) ∧
    (ClickOutcome.mk 0 0).fromBackdrop = 0 :=
  ⟨(backdrop_click_dismissal openProps rfl).1,
   (backdrop_click_dismissal openNoDismissProps rfl).1,
   (backdrop_click_dismissal openProps rfl).2 0 [1] ⟨0, 0⟩ true rfl⟩

/-! ### C5: the explicit close button -/

/-- The path from the rendered root to the close button: backdrop → panel
(index 0) → header (index 0) → close button (after the title when one is
rendered). -/
def closeButtonPath (p : DialogProps) : List Nat :=
  [0, 0, if p.title then 1 else 0]

/-- C5: for every configuration with `open = true` and
`showCloseButton = true`, the close button is rendered and activating it
invokes `onClose` exactly once — one close-button-tagged call, zero
backdrop-tagged calls — independently of `closeOnEscape` and
`closeOnOutsideClick` (which the run never consults: propagation stops at
the panel). -/
theorem close_button_invokes_once (p : DialogProps) (ho : p.open' = true)
    (hs : p.showCloseButton = true) :
    (targetElem (closeButtonPath p) (dialogContent p)).map Elem.tag =
      some "CloseButton" ∧
    dispatchClick (closeButtonPath p) (dialogContent p) =
      some (⟨0, 1⟩, true) := by
  obtain ⟨op, t, a, sz, scb, cooc, coe, sb, fw, dbs, up⟩ := p
  cases hs
  cases t <;> cases a <;> exact ⟨rfl, rfl⟩

theorem close_button_invokes_once_witness :
    (targetElem (closeButtonPath openNoDismissProps)
        (dialogContent openNoDismissProps)).map Elem.tag = some "CloseButton" ∧
    dispatchClick (closeButtonPath openNoDismissProps)
        (dialogContent openNoDismissProps) = some (⟨0, 1⟩, true) :=
  close_button_invokes_once openNoDismissProps rfl rfl

/-! ### C6: at most one close request per event -/

/-- C6: under every configuration, a single input event produces at most
one `onClose` invocation — a keydown runs the single registered listener,
whose body calls `onClose` at most once, and a click dispatch through the
rendered tree accumulates at most one call because every handler above a
target is silent (`stopPropagation`, no-op, or a
`target === currentTarget` guard that fails). -/
theorem one_event_at_most_one_close (p : DialogProps) :
    (∀ key : String, documentKeydown p key ≤ 1) ∧
    (∀ (path : List Nat) (o : ClickOutcome) (s : Bool),
      dispatchClick path (dialogContent p) = some (o, s) → o.total ≤ 1) := by
  constructor
  · intro key
    simp only [documentKeydown, mountedKeydownListeners, List.map_cons,
      List.map_nil, List.sum_cons, List.sum_nil, Nat.add_zero]
    unfold handleKeyDown
    split <;> simp
  · intro path o s hd
    exact dispatchClick_total_le_one path (dialogContent p)
      (internalsSilent_dialogContent p) o s hd

theorem one_event_at_most_one_close_witness :
    documentKeydown openProps "Escape" ≤ 1 ∧
    (ClickOutcome.mk 0 1).total ≤ 1 :=
  ⟨(one_event_at_most_one_close openProps).1 "Escape",
   (one_event_at_most_one_close openProps).2 [0, 0, 1] ⟨0, 1⟩ true rfl⟩

/-! ### C7: portal versus inline rendering -/

/-- C7: the `usePortal` flag only selects where the (single) content tree
is mounted — `createPortal(dialogContent, document.body)` versus returning
`dialogContent` inline.  The content, its handlers, and the document-level
keydown listener are identical in both cases, so every dismissal behaviour
(Escape, backdrop click, panel click, close button) coincides. -/
theorem portal_choice_preserves_semantics (p : DialogProps) :
    contentOf (Dialog { p with usePortal := true }) =
      contentOf (Dialog { p with usePortal := false }) ∧
    dialogContent { p with usePortal := true } =
      dialogContent { p with usePortal := false } ∧
    (∀ path : List Nat,
      dispatchClick path (dialogContent { p with usePortal := true }) =
        dispatchClick path (dialogContent { p with usePortal := false })) ∧
    mountedKeydownListeners { p with usePortal := true } =
      mountedKeydownListeners { p with usePortal := false } ∧
    (∀ key : String,
      documentKeydown { p with usePortal := true } key =
        documentKeydown { p with usePortal := false } key) := by
  obtain ⟨op, t, a, sz, scb, cooc, coe, sb, fw, dbs, up⟩ := p
  refine ⟨?_, rfl, fun path => rfl, rfl, fun key => rfl⟩
  cases op <;> rfl

/-! ### C8: configuration defaults -/

/-- C8: whenever an option is omitted at the call site, the destructuring
default of the `Dialog` parameter list applies: `size = 'medium'`,
`showCloseButton = true`, `closeOnOutsideClick = true`,
`closeOnEscape = true`, `showBackdrop = true`, `disableBodyScroll = true`,
`usePortal = true`. -/
theorem dialog_effective_defaults (o : DialogOptions)
    (h1 : o.size = none) (h2 : o.showCloseButton = none)
    (h3 : o.closeOnOutsideClick = none) (h4 : o.closeOnEscape = none)
    (h5 : o.showBackdrop = none) (h6 : o.disableBodyScroll = none)
    (h7 : o.usePortal = none) :
    (applyDefaults o).size = DialogSize.medium ∧
    (applyDefaults o).showCloseButton = true ∧
    (applyDefaults o).closeOnOutsideClick = true ∧
    (applyDefaults o).closeOnEscape = true ∧
    (applyDefaults o).showBackdrop = true ∧
    (applyDefaults o).disableBodyScroll = true ∧
    (applyDefaults o).usePortal = true := by
  simp [applyDefaults, h1, h2, h3, h4, h5, h6, h7]

/-- A call site that passes `open`, `title`, `children` and nothing else. -/
def omittedOptions : DialogOptions :=
  { open' := true, title := true, actions := false, size := none,
    showCloseButton := none, closeOnOutsideClick := none, closeOnEscape := none,
    showBackdrop := none, fullWidth := none, disableBodyScroll := none,
    usePortal := none }

theorem dialog_effective_defaults_witness :
    (applyDefaults omittedOptions).size = DialogSize.medium ∧
    (applyDefaults omittedOptions).showCloseButton = true ∧
    (applyDefaults omittedOptions).closeOnOutsideClick = true ∧
    (applyDefaults omittedOptions).closeOnEscape = true ∧
    (applyDefaults omittedOptions).showBackdrop = true ∧
    (applyDefaults omittedOptions).disableBodyScroll = true ∧
    (applyDefaults omittedOptions).usePortal = true :=
  dialog_effective_defaults omittedOptions rfl rfl rfl rfl rfl rfl rfl

/-! ### C9: `showBackdrop = false` hides the whole dialog -/

/-- C9: with `open = true` and `showBackdrop = false`, the rendered root —
the backdrop wrapper — carries inline style `display: 'none'`, and the
panel with all its parts (container, content, and title / close button /
actions when configured) are descendants of that wrapper, so the entire
dialog is hidden, not just the dimming layer. -/
theorem hidden_backdrop_hides_whole_dialog (p : DialogProps)
    (ho : p.open' = true) (hb : p.showBackdrop = false) :
    contentOf (Dialog p) = some (dialogContent p) ∧
    (dialogContent p).display = some "none" ∧
    "DialogContainer" ∈ childTags (dialogContent p) ∧
    "DialogContent" ∈ childTags (dialogContent p) ∧
    (p.title = true → "DialogTitle" ∈ childTags (dialogContent p)) ∧
    (p.showCloseButton = true → "CloseButton" ∈ childTags (dialogContent p)) ∧
    (p.actions = true → "DialogActions" ∈ childTags (dialogContent p)) := by
  obtain ⟨op, t, a, sz, scb, cooc, coe, sb, fw, dbs, up⟩ := p
  cases ho
  cases hb
  refine ⟨?_, rfl, ?_, ?_, ?_, ?_, ?_⟩
  · cases up <;> rfl
  all_goals
    cases t <;> cases scb <;> cases a <;>
      simp [childTags, elemTags, elemTagsList, dialogContent, dialogPanel]

theorem hidden_backdrop_hides_whole_dialog_witness :
    contentOf (Dialog openHiddenBackdropProps) =
      some (dialogContent openHiddenBackdropProps) ∧
    (dialogContent openHiddenBackdropProps).display = some "none" ∧
    "DialogContainer" ∈ childTags (dialogContent openHiddenBackdropProps) ∧
    "DialogContent" ∈ childTags (dialogContent openHiddenBackdropProps) ∧
    "DialogTitle" ∈ childTags (dialogContent openHiddenBackdropProps) ∧
    "CloseButton" ∈ childTags (dialogContent openHiddenBackdropProps) ∧
    "DialogActions" ∈ childTags (dialogContent openHiddenBackdropProps) := by
  have h := hidden_backdrop_hides_whole_dialog openHiddenBackdropProps rfl rfl
  exact ⟨h.1, h.2.1, h.2.2.1, h.2.2.2.1, h.2.2.2.2.1 rfl, h.2.2.2.2.2.1 rfl,
    h.2.2.2.2.2.2 rfl⟩
